import Mathlib

/-!
Shallow embedding of the Schwab token manager (`src/schwabdev/tokens.py`,
with the older variant in `src/schwabdev/api.py`) and proofs about it.

Modelling conventions:
* Instants and durations (Python `datetime` / float seconds) are integer
  seconds (`ℤ`): every expiry threshold the code compares against is an
  integer, so fractional seconds play no role in any compared behaviour.
* Python values found in provider payloads are modelled by `JVal`
  (string / integer / null), and a payload (`dict` parsed from JSON)
  is an association list `Payload`, preserving unknown keys verbatim.
* A fallible Python operation is `Except`/`Option`; a raised exception is
  the error branch, carrying the Python exception class and message as `PyExc`.
* Side effects that the claims talk about (prints, sleeps, network posts,
  file accesses) are recorded in explicit event traces.
-/

namespace Schwabdev

/-- A JSON-ish Python value as it appears in provider payloads. -/
inductive JVal where
  | str (s : String)
  | num (n : Int)
  | null
  deriving DecidableEq, Repr

/-- Python truthiness of a `JVal` (`if refresh_token:` in the source). -/
def JVal.truthy : JVal → Bool
  | .str s => !s.isEmpty
  | .num n => n != 0
  | .null => false

/-- Python truthiness of `dict.get` results: `None` (absent key) is falsy. -/
def truthyOpt : Option JVal → Bool
  | none => false
  | some v => v.truthy

/-- A provider payload: a JSON object as an association list, keeping
unknown keys and their order verbatim. -/
abbrev Payload := List (String × JVal)

/-- `dict.get(key)`: first binding of `key`, `None` when absent. -/
def Payload.get (p : Payload) (k : String) : Option JVal :=
  match p with
  | [] => none
  | (k', v) :: rest => if k' = k then some v else Payload.get rest k

/-- `dict.get("expires_in", default)` used as the access-token lifetime:
the stored value when the key is present and numeric, the default otherwise.
(Payloads carrying a non-numeric `expires_in` are outside the modelled
domain; theorems that depend on `expires_in` assume it numeric or absent.) -/
def Payload.getLifetime (p : Payload) (k : String) (dflt : ℤ) : ℤ :=
  match p.get k with
  | some (.num n) => (n : ℤ)
  | _ => dflt

/-- Whether `expires_in` in a payload is absent or an integer — the
well-formedness assumption under which `Payload.getLifetime` is exact. -/
def Payload.expiresInWF (p : Payload) : Prop :=
  p.get "expires_in" = none ∨ ∃ n : Int, p.get "expires_in" = some (.num n)

instance (p : Payload) : Decidable p.expiresInWF := by
  unfold Payload.expiresInWF
  match h : p.get "expires_in" with
  | none => exact .isTrue (Or.inl rfl)
  | some (.num n) => exact .isTrue (Or.inr ⟨n, rfl⟩)
  | some (.str s) =>
      refine .isFalse ?_
      rintro (h' | ⟨n, h'⟩) <;> simp [h] at h'
  | some .null =>
      refine .isFalse ?_
      rintro (h' | ⟨n, h'⟩) <;> simp [h] at h'

/-- Python exception values the token manager raises, by class and message.
`tokens.py` defines `class TokenUpdateError(TokenError)` and raises it both
for unavailability and for exchange failures; `ValueError` comes from
`Token.__init__`; `Exception` is the bare class used by `Tokens.__init__`. -/
inductive PyExc where
  | tokenUpdateError (msg : String)
  | valueError (msg : String)
  | exception (msg : String)
  deriving DecidableEq, Repr

deriving instance DecidableEq for Except

/-- The Python exception class name of a raised value — the "error kind". -/
def PyExc.className : PyExc → String
  | .tokenUpdateError _ => "TokenUpdateError"
  | .valueError _ => "ValueError"
  | .exception _ => "Exception"

/-- `class Token` (`tokens.py` lines 139–165): a credential with a lifetime
in seconds, an optional issue instant, and an optional opaque secret
(`_token`; `None` until first set, thereafter whatever the payload held). -/
structure Token where
  lifetime : ℤ
  issued : Option ℤ
  tok : Option JVal
  deriving DecidableEq, Repr

/-- `Token.__init__(lifeseconds, lifedays)`: lifetime is
`lifeseconds + lifedays*86400` (the `if lifedays:` guard), rejecting zero. -/
def Token.init (lifeseconds lifedays : ℤ) : Except PyExc Token :=
  let lifetime := lifeseconds + (if lifedays ≠ 0 then lifedays * 86400 else 0)
  if lifetime = 0 then
    .error (.valueError "lifeseconds or lifedays must be more than zero")
  else
    .ok { lifetime := lifetime, issued := none, tok := none }

/-- The `token` property setter: assigning `token = value` sets
`issued = datetime.now()` as a side effect. -/
def Token.setToken (t : Token) (now : ℤ) (v : Option JVal) : Token :=
  { t with issued := some now, tok := v }

/-- `datetime.now() - issued`: raises `TypeError` when `issued` is `None`. -/
def datetimeAge (now : ℤ) (issued : Option ℤ) : Except Unit ℤ :=
  match issued with
  | none => .error ()
  | some i => .ok (now - i)

/-- The `expires` property: `lifetime - (now - issued).total_seconds()`,
with the `TypeError` (absent `issued`) caught and turned into `0`. -/
def Token.expires (t : Token) (now : ℤ) : ℤ :=
  match datetimeAge now t.issued with
  | .ok age => t.lifetime - age
  | .error _ => 0

/-- The mutable state of a `Tokens` instance that the claims mention. -/
structure TokensState where
  accessToken : Token
  refreshToken : Token
  idToken : Option JVal
  tokenUsable : ℤ
  autoRefresh : Bool
  webbrowser : Bool
  verbose : Bool
  deriving DecidableEq, Repr

/-- The persisted tokens file when it is readable and well formed:
the JSON object `{access_token_issued, refresh_token_issued, token_dictionary}`.
The two issue instants are stored as ISO-8601 strings on disk;
`datetime.isoformat`/`datetime.fromisoformat` mediate losslessly, so the
model keeps them as the instants themselves.  An absent, unreadable or
malformed file is `none` wherever an `Option FileState` is taken. -/
structure FileState where
  access_token_issued : ℤ
  refresh_token_issued : ℤ
  token_dictionary : Payload
  deriving DecidableEq, Repr

/-- `Tokens._write_tokens_file(tokenDictionary)` (`tokens.py` 396–412):
writes `{access_token_issued: issued.isoformat(), refresh_token_issued:
issued.isoformat(), token_dictionary: tokenDictionary}`.  When either
`issued` is `None`, `isoformat` raises, the exception is caught and logged
and no file is produced (`none`); the payload itself is stored verbatim. -/
def write_tokens_file (s : TokensState) (payload : Payload) : Option FileState :=
  match s.accessToken.issued, s.refreshToken.issued with
  | some a, some r =>
      some { access_token_issued := a
             refresh_token_issued := r
             token_dictionary := payload }
  | _, _ => none

/-- The successful body of `Tokens._read_tokens_file` (`tokens.py` 415–433):
adopts the on-disk state into memory.  Net effect of the assignments:
access lifetime from `expires_in` (retained when absent), both secrets from
`token_dictionary`, both `issued` stamps from the stored ISO timestamps
(the setter's `now` is overwritten by the explicit `issued =` assignments),
and `id_token`. -/
def read_into (s : TokensState) (f : FileState) : TokensState :=
  { s with
    accessToken :=
      { lifetime := f.token_dictionary.getLifetime "expires_in" s.accessToken.lifetime
        tok := f.token_dictionary.get "access_token"
        issued := some f.access_token_issued }
    refreshToken :=
      { s.refreshToken with
        tok := f.token_dictionary.get "refresh_token"
        issued := some f.refresh_token_issued }
    idToken := f.token_dictionary.get "id_token" }

/-- `Tokens._read_tokens_file`: raises (caught by callers) when the file is
absent, unreadable or malformed (`none`), else adopts the on-disk state. -/
def read_tokens_file (s : TokensState) (file : Option FileState) :
    Except Unit TokensState :=
  match file with
  | none => .error ()
  | some f => .ok (read_into s f)

/-- `Tokens._tokens_unchanged` (`tokens.py` 383–393): remembers the
in-memory secrets, re-reads the persisted file (which *adopts* the on-disk
state into memory when readable), and reports whether the remembered
secrets equal the post-read ones.  A failed read reports `true` with the
memory untouched.  Returns `(unchanged, state after the read)`. -/
def tokens_unchanged (s : TokensState) (file : Option FileState) :
    Bool × TokensState :=
  match read_tokens_file s file with
  | .error _ => (true, s)
  | .ok s' =>
      (decide (s.accessToken.tok = s'.accessToken.tok ∧
        s.refreshToken.tok = s'.refreshToken.tok), s')

/-- The `DoLocked` decorator (`tokens.py` 169–181).  With the `LockFile`
primitive importable (`lockAvailable = true`) the wrapped body runs under
the lock only if `_tokens_unchanged()` holds, on the state the re-read
produced; otherwise (on-disk secrets differ) the body is skipped and the
adopted on-disk state stands.  Without `LockFile` the body runs unguarded
on the unread state.  Returns the final state and whether the body ran. -/
def doLocked (lockAvailable : Bool) (file : Option FileState)
    (body : TokensState → TokensState) (s : TokensState) :
    TokensState × Bool :=
  if lockAvailable then
    let (unchanged, s') := tokens_unchanged s file
    if unchanged then (body s', true) else (s', false)
  else (body s, true)

/-- An HTTP response from the token endpoint: `response.ok` (2xx) and the
JSON body `response.json()`. -/
structure HttpResponse where
  ok : Bool
  payload : Payload
  deriving DecidableEq, Repr

/-- The success branch of `Tokens._update_access_token` (`tokens.py`
342–356), in source order: adopt `id_token`; adopt the access secret (the
setter stamps `issued = now`); adopt the refresh secret only when the
payload holds a truthy one different from the in-memory one; write the
tokens file; finally adopt `expires_in` as the access lifetime (retaining
the previous one when absent).  Returns the new state and the file written
(if the write succeeded). -/
def process_refresh_success (s : TokensState) (p : Payload) (now : ℤ) :
    TokensState × Option FileState :=
  let s1 := { s with idToken := p.get "id_token" }
  let s2 := { s1 with accessToken := s1.accessToken.setToken now (p.get "access_token") }
  let rt := p.get "refresh_token"
  let s3 :=
    if truthyOpt rt && decide (rt ≠ s2.refreshToken.tok) then
      { s2 with refreshToken := s2.refreshToken.setToken now rt }
    else s2
  let file := write_tokens_file s3 p
  let s4 := { s3 with accessToken := { s3.accessToken with
                lifetime := p.getLifetime "expires_in" s3.accessToken.lifetime } }
  (s4, file)

/-- Observable actions of the refresh retry loop: the `i`-th POST to the
token endpoint, and `time.sleep(i ** 2)` after a failed attempt. -/
inductive REvent where
  | post (i : Nat)
  | sleep (secs : Nat)
  deriving DecidableEq, Repr

/-- The `for i in range(3) ... else raise` loop of
`Tokens._update_access_token` (`tokens.py` 334–362), from attempt `i`
onward with `fuel` attempts left (`fuel = 3 - i`).  `responses i` is what
the `i`-th POST would return.  A 2xx response ends the loop through the
success branch; a non-2xx logs, sleeps `i ** 2` seconds and retries;
falling off the loop raises `TokenUpdateError` (the exhausted case). -/
def update_access_token_go (responses : Nat → HttpResponse) (now : ℤ)
    (s : TokensState) :
    Nat → Nat → Except PyExc (TokensState × Option FileState) × List REvent
  | _, 0 => (.error (.tokenUpdateError "Could not get new access token."), [])
  | i, fuel + 1 =>
      let r := responses i
      if r.ok then
        (.ok (process_refresh_success s r.payload now), [REvent.post i])
      else
        let (res, tr) := update_access_token_go responses now s (i + 1) fuel
        (res, REvent.post i :: REvent.sleep (i ^ 2) :: tr)

/-- `Tokens._update_access_token` as a whole: the `range(3)` retry loop
from attempt 0. -/
def update_access_token (responses : Nat → HttpResponse) (now : ℤ)
    (s : TokensState) :
    Except PyExc (TokensState × Option FileState) × List REvent :=
  update_access_token_go responses now s 0 3

/-- Observable actions of one `Tokens.update_tokens` check: a user-facing
expiry warning, a call into `acquire_refresh_token`, and a call into
`_update_access_token`. -/
inductive UEvent where
  | warn
  | reauthCall
  | refreshCall
  deriving DecidableEq, Repr

/-- `Tokens.update_tokens` (`tokens.py` 280–294).  The two bodies it may
invoke are passed as transformers (`none` = the call raised; the exception
propagates out of `update_tokens`).  Emits the warning 3× when the refresh
token is within 1 s of expiry, re-authorizes when additionally
`auto_refresh` is set, and refreshes the access token when its remaining
time (re-evaluated after any re-authorization) is below `_token_usable`. -/
def update_tokens (s : TokensState) (now : ℤ)
    (reauth refresh : TokensState → Option TokensState) :
    Option TokensState × List UEvent :=
  let rtem := decide (s.refreshToken.expires now < 1)
  let (s1?, ev1) :=
    if rtem then
      if s.autoRefresh then
        (reauth s, [UEvent.warn, UEvent.warn, UEvent.warn, UEvent.reauthCall])
      else
        (some s, [UEvent.warn, UEvent.warn, UEvent.warn])
    else (some s, ([] : List UEvent))
  match s1? with
  | none => (none, ev1)
  | some s1 =>
      if s1.accessToken.expires now < s1.tokenUsable then
        (refresh s1, ev1 ++ [UEvent.refreshCall])
      else (some s1, ev1)

/-- The older `Tokens.update_tokens` of `src/schwabdev/api.py` (135–149):
an `if auto_refresh and rte < 1 ... elif rte < 60 or ate < 60 ...` chain,
warning only inside the auto-refresh re-authorization branch. -/
def update_tokens_api (s : TokensState) (now : ℤ)
    (reauth refresh : TokensState → Option TokensState) :
    Option TokensState × List UEvent :=
  let rte := s.refreshToken.expires now
  if s.autoRefresh && decide (rte < 1) then
    (reauth s, [UEvent.warn, UEvent.warn, UEvent.warn, UEvent.reauthCall])
  else if decide (rte < s.tokenUsable) ||
          decide (s.accessToken.expires now < s.tokenUsable) then
    (refresh s, [UEvent.refreshCall])
  else (some s, [])

/-- A token-expiry situation: refresh remaining time, access remaining
time, and the `auto_refresh` flag. -/
structure UTInput where
  rte : ℤ
  ate : ℤ
  auto : Bool
  deriving DecidableEq, Repr

/-- What one `update_tokens` check decided: how many warnings it printed,
whether it called `acquire_refresh_token`, whether it called
`_update_access_token`. -/
structure UTDecision where
  warns : Nat
  reauth : Bool
  refreshes : Bool
  deriving DecidableEq, Repr

/-- A `TokensState` whose refresh/access tokens have exactly the remaining
times of `i` at instant 0 (issued at 0 with lifetime = remaining). -/
def mkExpiryState (i : UTInput) : TokensState :=
  { accessToken := { lifetime := i.ate, issued := some 0, tok := some (.str "a") }
    refreshToken := { lifetime := i.rte, issued := some 0, tok := some (.str "r") }
    idToken := none
    tokenUsable := 60
    autoRefresh := i.auto
    webbrowser := false
    verbose := false }

/-- The decision the `tokens.py` `update_tokens` makes on a given expiry
situation, read off its event trace (with the two bodies as no-ops). -/
def update_tokens_decider (i : UTInput) : UTDecision :=
  let tr := (update_tokens (mkExpiryState i) 0 some some).2
  { warns := tr.count UEvent.warn
    reauth := tr.contains UEvent.reauthCall
    refreshes := tr.contains UEvent.refreshCall }

/-- The decision the older `api.py` `update_tokens` makes on the same
expiry situation. -/
def update_tokens_api_decider (i : UTInput) : UTDecision :=
  let tr := (update_tokens_api (mkExpiryState i) 0 some some).2
  { warns := tr.count UEvent.warn
    reauth := tr.contains UEvent.reauthCall
    refreshes := tr.contains UEvent.refreshCall }

/-- Python `hay.index(pat)` over character lists: index of the first
occurrence of `pat` in `hay`, `none` (a raised `ValueError`) when absent. -/
def strFindIdx (pat : List Char) : List Char → Option Nat
  | [] => if pat.isPrefixOf [] then some 0 else none
  | c :: t =>
      if pat.isPrefixOf (c :: t) then some 0
      else (strFindIdx pat t).map (· + 1)

/-- The authorization-code extraction of `acquire_refresh_token`
(`tokens.py` 316): `url[url.index("code=") + 5 : url.index("%40")] + "@"`,
raising `ValueError` when either marker is absent.  An empty Python slice
(start past stop) yields the empty string, as `List.take` of a truncated
`Nat` difference does here. -/
def extract_code (url : String) : Except PyExc String :=
  match strFindIdx "code=".data url.data, strFindIdx "%40".data url.data with
  | some i, some j =>
      .ok (String.mk ((url.data.drop (i + 5)).take (j - (i + 5))) ++ "@")
  | _, _ => .error (.valueError "substring not found")

/-- Observable actions of `acquire_refresh_token`: user-facing prints,
the browser launch, the blocking `input()` read, and the POST. -/
inductive AEvent where
  | print
  | browserOpen
  | inputRead
  | post
  deriving DecidableEq, Repr

/-- The body of `Tokens.acquire_refresh_token` (`tokens.py` 298–331, inside
the `DoLocked` wrapper).  `isatty` is `stdin.isatty()`, `pastedUrl` what the
blocking read would return, `resp` what the POST would return.  Without a
browser and without a tty it raises `TokenUpdateError` at once — before any
print, read or network call; otherwise it prompts, optionally opens the
browser, blocks on input, extracts the code, posts, and on non-2xx raises
`TokenUpdateError` (on 2xx it adopts the pair and writes the file). -/
def acquire_refresh_token_body (isatty : Bool) (pastedUrl : String)
    (resp : HttpResponse) (now : ℤ) (s : TokensState) :
    Except PyExc (TokensState × Option FileState) × List AEvent :=
  if !s.webbrowser && !isatty then
    (.error (.tokenUpdateError
        "Unable to update refresh token: no webbrowser and not a tty!"), [])
  else
    let evs := [AEvent.print, AEvent.print] ++
      (if s.webbrowser then [AEvent.print, AEvent.browserOpen] else []) ++
      [AEvent.inputRead]
    match extract_code pastedUrl with
    | .error e => (.error e, evs)
    | .ok _code =>
        let evs := evs ++ [AEvent.post]
        if resp.ok then
          let p := resp.payload
          let s1 := { s with
            idToken := p.get "id_token"
            accessToken := s.accessToken.setToken now (p.get "access_token")
            refreshToken := s.refreshToken.setToken now (p.get "refresh_token") }
          (.ok (s1, write_tokens_file s1 p), evs ++ [AEvent.print])
        else
          (.error (.tokenUpdateError "Could not acquire refresh token."),
           evs ++ [AEvent.print])

/-- Observable actions of the background checker thread of
`Tokens.update_tokens_auto`: the `update_tokens()` call, the logging of a
caught exception, the `first.set()` readiness signal, and the
`time.sleep(self._token_usable)` poll delay. -/
inductive LEvent where
  | updateCall
  | logError
  | firstSet
  | sleepPoll (secs : ℤ)
  deriving DecidableEq, Repr

/-- One iteration of the `checker` loop (`tokens.py` 267–274): call
`update_tokens` inside `try`, log the exception if it raised, then always
set the readiness event and sleep one poll interval.  `raised` says whether
this cycle's `update_tokens` raised. -/
def checker_cycle (usable : ℤ) (raised : Bool) : List LEvent :=
  LEvent.updateCall ::
    ((if raised then [LEvent.logError] else []) ++
      [LEvent.firstSet, LEvent.sleepPoll usable])

/-- The checker loop run for finitely many poll cycles, `outcomes` giving
each cycle's raised/completed status in order. -/
def checker_loop (usable : ℤ) (outcomes : List Bool) : List LEvent :=
  outcomes.flatMap (checker_cycle usable)

/-- File-touching actions of `Tokens.__init__`: the `_read_tokens_file`
attempt and the `open(file, "w").close()` creation of an empty file. -/
inductive IEvent where
  | fileRead
  | fileCreate
  deriving DecidableEq, Repr

/-- `Tokens.__init__` (`tokens.py` 187–244): validates `callback_url` and
`tokens_file` against `None` and the app key/secret lengths against 32/16,
raising before anything else; then builds the two tokens and tries to read
the tokens file, creating an empty one when the read fails.  `file` is the
on-disk state (`none` = absent or malformed). -/
def tokens_init (app_key app_secret : String)
    (callback_url tokens_file : Option String)
    (verbose webbrowser auto_refresh : Bool)
    (file : Option FileState) :
    Except PyExc TokensState × List IEvent :=
  if callback_url = none ∨ tokens_file = none then
    (.error (.exception "callback_url and tokens_file cannot be None."), [])
  else if app_key.length ≠ 32 ∨ app_secret.length ≠ 16 then
    (.error (.exception "Invalid length App key or app secret."), [])
  else
    match Token.init 1800 0, Token.init 0 11 with
    | .ok at0, .ok rt0 =>
        let s0 : TokensState :=
          { accessToken := at0
            refreshToken := rt0
            idToken := none
            tokenUsable := 60
            autoRefresh := auto_refresh
            webbrowser := webbrowser
            verbose := verbose }
        match read_tokens_file s0 file with
        | .error _ => (.ok s0, [IEvent.fileRead, IEvent.fileCreate])
        | .ok s1 => (.ok s1, [IEvent.fileRead])
    | .error e, _ => (.error e, [])
    | _, .error e => (.error e, [])

/-- C5: `Token.expires` equals `lifetime - (now - issuedAt)` when `issuedAt`
is set, is `0` whenever `issuedAt` is absent (`None`), and may be negative
when overdue.  It is a total function of the model, mirroring that the
Python property catches the only possible exception (`TypeError` on absent
`issuedAt`) for every combination of `lifetime` and `issuedAt`. -/
theorem token_expires_spec (t : Token) (now : ℤ) :
    (t.issued = none → t.expires now = 0) ∧
    (∀ i, t.issued = some i → t.expires now = t.lifetime - (now - i)) ∧
    (∃ t' : Token, ∃ now' : ℤ, t'.expires now' < 0) := by
  refine ⟨?_, ?_, ⟨⟨1800, some 0, none⟩, 10000, by decide⟩⟩
  · intro h
    simp [Token.expires, datetimeAge, h]
  · intro i h
    simp [Token.expires, datetimeAge, h]

/-- Witness for `token_expires_spec` at concrete tokens: an unissued token
has 0 seconds remaining, and a token issued at 100 with lifetime 1800 has
`1800 - (150 - 100)` seconds remaining at instant 150. -/
theorem token_expires_spec_witness :
    (Token.mk 1800 none none).expires 5 = 0 ∧
    (Token.mk 1800 (some 100) none).expires 150 = 1800 - (150 - 100) :=
  ⟨(token_expires_spec ⟨1800, none, none⟩ 5).1 rfl,
   (token_expires_spec ⟨1800, some 100, none⟩ 150).2.1 100 rfl⟩

/-- C3: on a successful refresh-token exchange, the access secret and its
issue stamp are always adopted; the refresh credential changes only when
the payload holds a truthy refresh secret different from the in-memory one
(same secret, or an absent/falsy one, leaves it untouched); and the access
lifetime becomes the payload's `expires_in` when present, else stays. -/
theorem process_refresh_success_frame (s : TokensState) (p : Payload) (now : ℤ) :
    ((process_refresh_success s p now).1.accessToken.tok = p.get "access_token" ∧
     (process_refresh_success s p now).1.accessToken.issued = some now) ∧
    (truthyOpt (p.get "refresh_token") = true → p.get "refresh_token" ≠ s.refreshToken.tok →
      (process_refresh_success s p now).1.refreshToken.tok = p.get "refresh_token" ∧
      (process_refresh_success s p now).1.refreshToken.issued = some now) ∧
    (p.get "refresh_token" = s.refreshToken.tok ∨ truthyOpt (p.get "refresh_token") = false →
      (process_refresh_success s p now).1.refreshToken = s.refreshToken) ∧
    (∀ n : Int, p.get "expires_in" = some (.num n) →
      (process_refresh_success s p now).1.accessToken.lifetime = n) ∧
    (p.get "expires_in" = none →
      (process_refresh_success s p now).1.accessToken.lifetime = s.accessToken.lifetime) := by
  have hcases :
      truthyOpt (p.get "refresh_token") = true ∧ ¬p.get "refresh_token" = s.refreshToken.tok ∨
      ¬(truthyOpt (p.get "refresh_token") = true ∧ ¬p.get "refresh_token" = s.refreshToken.tok) :=
    em _
  refine ⟨⟨?_, ?_⟩, ?_, ?_, ?_, ?_⟩
  · rcases hcases with h | h <;> simp [process_refresh_success, Token.setToken, h]
  · rcases hcases with h | h <;> simp [process_refresh_success, Token.setToken, h]
  · intro ht hne
    simp [process_refresh_success, Token.setToken, ht, hne]
  · rintro (heq | hf)
    · simp [process_refresh_success, Token.setToken, heq]
    · simp [process_refresh_success, Token.setToken, hf]
  · intro n hn
    rcases hcases with h | h <;>
      simp [process_refresh_success, Token.setToken, Payload.getLifetime, hn, h]
  · intro hn
    rcases hcases with h | h <;>
      simp [process_refresh_success, Token.setToken, Payload.getLifetime, hn, h]

/-- Witness for `process_refresh_success_frame`: a payload rotating the
refresh secret and declaring `expires_in = 900` updates both credentials
and the lifetime; the issue stamps are `now = 50`. -/
theorem process_refresh_success_frame_witness :
    ((process_refresh_success (mkExpiryState ⟨10, 10, true⟩)
        [("access_token", .str "A2"), ("refresh_token", .str "R2"), ("expires_in", .num 900)]
        50).1.refreshToken.tok = some (.str "R2") ∧
     (process_refresh_success (mkExpiryState ⟨10, 10, true⟩)
        [("access_token", .str "A2"), ("refresh_token", .str "R2"), ("expires_in", .num 900)]
        50).1.refreshToken.issued = some 50) ∧
    (process_refresh_success (mkExpiryState ⟨10, 10, true⟩)
        [("access_token", .str "A2"), ("refresh_token", .str "R2"), ("expires_in", .num 900)]
        50).1.accessToken.lifetime = 900 := by
  have h := process_refresh_success_frame (mkExpiryState ⟨10, 10, true⟩)
    [("access_token", .str "A2"), ("refresh_token", .str "R2"), ("expires_in", .num 900)] 50
  exact ⟨h.2.1 (by decide) (by decide), h.2.2.2.1 900 (by decide)⟩

/-- C8: writing the tokens file stores the provider payload verbatim under
`token_dictionary` — unknown extra fields included — next to the two issue
timestamps, and reading the file back reproduces exactly that payload and
those timestamps; the stored payload depends only on the payload argument,
never on the typed credential fields (two states agreeing on the issue
stamps write identical files for the same payload). -/
theorem tokens_file_roundtrip (s s₂ : TokensState) (p : Payload) (a r : ℤ)
    (ha : s.accessToken.issued = some a) (hr : s.refreshToken.issued = some r) :
    write_tokens_file s p = some ⟨a, r, p⟩ ∧
    (∀ s₀, read_tokens_file s₀ (write_tokens_file s p) = .ok (read_into s₀ ⟨a, r, p⟩)) ∧
    (∀ f, write_tokens_file s p = some f →
      f.token_dictionary = p ∧ f.access_token_issued = a ∧ f.refresh_token_issued = r) ∧
    (s₂.accessToken.issued = some a → s₂.refreshToken.issued = some r →
      write_tokens_file s₂ p = write_tokens_file s p) := by
  have hw : write_tokens_file s p = some ⟨a, r, p⟩ := by
    simp [write_tokens_file, ha, hr]
  refine ⟨hw, ?_, ?_, ?_⟩
  · intro s₀
    rw [hw]
    rfl
  · intro f hf
    rw [hw] at hf
    cases hf
    exact ⟨rfl, rfl, rfl⟩
  · intro ha₂ hr₂
    rw [hw]
    simp [write_tokens_file, ha₂, hr₂]

/-- Witness for `tokens_file_roundtrip`: a payload with an unknown extra
field (`"mystery"`) survives the write/read round trip verbatim. -/
theorem tokens_file_roundtrip_witness :
    write_tokens_file
        { mkExpiryState ⟨10, 10, true⟩ with
          accessToken := { lifetime := 1800, issued := some 7, tok := some (.str "a") }
          refreshToken := { lifetime := 950400, issued := some 3, tok := some (.str "r") } }
        [("access_token", .str "x"), ("mystery", .num 42)]
      = some ⟨7, 3, [("access_token", .str "x"), ("mystery", .num 42)]⟩ :=
  (tokens_file_roundtrip
    { mkExpiryState ⟨10, 10, true⟩ with
      accessToken := { lifetime := 1800, issued := some 7, tok := some (.str "a") }
      refreshToken := { lifetime := 950400, issued := some 3, tok := some (.str "r") } }
    (mkExpiryState ⟨10, 10, true⟩)
    [("access_token", .str "x"), ("mystery", .num 42)] 7 3 rfl rfl).1

/-- C4: with the locking primitive available, a `DoLocked`-guarded body
re-reads the persisted file first and is skipped — with the on-disk state
adopted in memory — exactly when the on-disk access/refresh secrets differ
from the in-memory ones; an unreadable file lets the body run; when it does
run it runs on the state the re-read produced; without the primitive the
body runs unguarded on the unread in-memory state, no comparison made. -/
theorem doLocked_guard (file : Option FileState)
    (body : TokensState → TokensState) (s : TokensState) :
    (∀ f, file = some f →
      (((doLocked true file body s).2 = false ↔
         ¬(s.accessToken.tok = (read_into s f).accessToken.tok ∧
           s.refreshToken.tok = (read_into s f).refreshToken.tok)) ∧
       ((doLocked true file body s).2 = false →
         (doLocked true file body s).1 = read_into s f) ∧
       ((doLocked true file body s).2 = true →
         (doLocked true file body s).1 = body (read_into s f)))) ∧
    (file = none → doLocked true file body s = (body s, true)) ∧
    doLocked false file body s = (body s, true) := by
  refine ⟨?_, ?_, by simp [doLocked]⟩
  · rintro f rfl
    by_cases h : s.accessToken.tok = (read_into s f).accessToken.tok ∧
        s.refreshToken.tok = (read_into s f).refreshToken.tok <;>
      simp [doLocked, tokens_unchanged, read_tokens_file, h]
  · rintro rfl
    simp [doLocked, tokens_unchanged, read_tokens_file]

/-- Witness for `doLocked_guard`: with on-disk secrets (`a2`/`r2`) that
differ from the in-memory ones (`a`/`r`), the guarded body is skipped and
the on-disk state is adopted. -/
theorem doLocked_guard_witness :
    (doLocked true
        (some ⟨1, 2, [("access_token", .str "a2"), ("refresh_token", .str "r2")]⟩)
        id (mkExpiryState ⟨10, 10, true⟩)).2 = false ∧
    (doLocked true
        (some ⟨1, 2, [("access_token", .str "a2"), ("refresh_token", .str "r2")]⟩)
        id (mkExpiryState ⟨10, 10, true⟩)).1 =
      read_into (mkExpiryState ⟨10, 10, true⟩)
        ⟨1, 2, [("access_token", .str "a2"), ("refresh_token", .str "r2")]⟩ := by
  have h := (doLocked_guard
      (some ⟨1, 2, [("access_token", .str "a2"), ("refresh_token", .str "r2")]⟩)
      id (mkExpiryState ⟨10, 10, true⟩)).1
      ⟨1, 2, [("access_token", .str "a2"), ("refresh_token", .str "r2")]⟩ rfl
  have hskip : (doLocked true
      (some ⟨1, 2, [("access_token", .str "a2"), ("refresh_token", .str "r2")]⟩)
      id (mkExpiryState ⟨10, 10, true⟩)).2 = false := h.1.mpr (by decide)
  exact ⟨hskip, h.2.1 hskip⟩

/-- The state `update_tokens` holds when it reaches the access-token check:
the entry state, routed through `acquire_refresh_token` when that was
invoked (`none` when that call raised, so the check is never reached). -/
def update_tokens_mid (s : TokensState) (now : ℤ)
    (reauth : TokensState → Option TokensState) : Option TokensState :=
  if s.refreshToken.expires now < 1 ∧ s.autoRefresh = true then reauth s else some s

/-- C1: one `update_tokens` check warns exactly 3 times precisely when the
refresh token has under 1 s remaining; it calls `acquire_refresh_token`
precisely when additionally `auto_refresh` is enabled; and it calls
`_update_access_token` precisely when the access token's remaining time —
on the state at that check — is under the `_token_usable` threshold (set
to 60 s at construction).  Stated over arbitrary behaviours of the two
invoked bodies (`reauth`/`refresh`, `none` = raised). -/
theorem update_tokens_triggers (s : TokensState) (now : ℤ)
    (reauth refresh : TokensState → Option TokensState) :
    ((update_tokens s now reauth refresh).2.count UEvent.warn
        = if s.refreshToken.expires now < 1 then 3 else 0) ∧
    (UEvent.reauthCall ∈ (update_tokens s now reauth refresh).2
        ↔ s.refreshToken.expires now < 1 ∧ s.autoRefresh = true) ∧
    (∀ s1, update_tokens_mid s now reauth = some s1 →
      (UEvent.refreshCall ∈ (update_tokens s now reauth refresh).2
        ↔ s1.accessToken.expires now < s1.tokenUsable)) := by
  by_cases hr : s.refreshToken.expires now < 1
  · by_cases ha : s.autoRefresh = true
    · cases hra : reauth s with
      | none =>
          refine ⟨?_, ?_, ?_⟩
          · simp [update_tokens, hr, ha, hra]
          · simp [update_tokens, hr, ha, hra]
          · intro s1 h1
            rw [update_tokens_mid, if_pos ⟨hr, ha⟩, hra] at h1
            cases h1
      | some s1 =>
          by_cases hac : s1.accessToken.expires now < s1.tokenUsable
          · refine ⟨?_, ?_, ?_⟩
            · simp [update_tokens, hr, ha, hra, hac]
            · simp [update_tokens, hr, ha, hra, hac]
            · intro s1' h1
              rw [update_tokens_mid, if_pos ⟨hr, ha⟩, hra] at h1
              cases h1
              simp [update_tokens, hr, ha, hra, hac]
          · refine ⟨?_, ?_, ?_⟩
            · simp [update_tokens, hr, ha, hra, hac]
            · simp [update_tokens, hr, ha, hra, hac]
            · intro s1' h1
              rw [update_tokens_mid, if_pos ⟨hr, ha⟩, hra] at h1
              cases h1
              simp [update_tokens, hr, ha, hra, hac]
    · by_cases hac : s.accessToken.expires now < s.tokenUsable <;>
        · refine ⟨?_, ?_, ?_⟩
          · simp [update_tokens, hr, ha, hac]
          · simp [update_tokens, hr, ha, hac]
          · intro s1' h1
            rw [update_tokens_mid, if_neg (by simp [ha])] at h1
            cases h1
            simp [update_tokens, hr, ha, hac]
  · by_cases hac : s.accessToken.expires now < s.tokenUsable <;>
      · refine ⟨?_, ?_, ?_⟩
        · simp [update_tokens, hr, hac]
        · simp [update_tokens, hr, hac]
        · intro s1' h1
          rw [update_tokens_mid, if_neg (by simp [hr])] at h1
          cases h1
          simp [update_tokens, hr, hac]

/-- Witness for `update_tokens_triggers` at a state whose refresh token has
0 s and access token 30 s remaining, with auto-refresh on and the bodies
succeeding unchanged: 3 warnings, a re-authorization call, and an
access-token refresh call. -/
theorem update_tokens_triggers_witness :
    (update_tokens (mkExpiryState ⟨0, 30, true⟩) 0 some some).2.count UEvent.warn = 3 ∧
    (UEvent.reauthCall ∈ (update_tokens (mkExpiryState ⟨0, 30, true⟩) 0 some some).2 ↔
      (mkExpiryState ⟨0, 30, true⟩).refreshToken.expires 0 < 1 ∧
      (mkExpiryState ⟨0, 30, true⟩).autoRefresh = true) ∧
    (UEvent.refreshCall ∈ (update_tokens (mkExpiryState ⟨0, 30, true⟩) 0 some some).2 ↔
      (mkExpiryState ⟨0, 30, true⟩).accessToken.expires 0 <
        (mkExpiryState ⟨0, 30, true⟩).tokenUsable) := by
  have h := update_tokens_triggers (mkExpiryState ⟨0, 30, true⟩) 0 some some
  refine ⟨?_, h.2.1, h.2.2 (mkExpiryState ⟨0, 30, true⟩) (by decide)⟩
  rw [h.1]
  decide

/-- Whether a retry-loop trace event is a POST to the token endpoint. -/
def REvent.isPost : REvent → Bool
  | .post _ => true
  | .sleep _ => false

/-- C2: `_update_access_token` makes at most 3 POST attempts, sleeping
`i ** 2` seconds after the `i`-th failed attempt; two failures followed by
a success yield success on the 3rd attempt with exactly the two backoff
delays 0 s and 1 s observed; three failures yield the exhausted
`TokenUpdateError` after exactly 3 POSTs (delays 0, 1, 4 s) and no further
network calls. -/
theorem update_access_token_retry (responses : Nat → HttpResponse)
    (now : ℤ) (s : TokensState) :
    ((update_access_token responses now s).2.countP (fun e => e.isPost = true) ≤ 3) ∧
    ((responses 0).ok = false → (responses 1).ok = false → (responses 2).ok = true →
      update_access_token responses now s =
        (.ok (process_refresh_success s (responses 2).payload now),
         [.post 0, .sleep 0, .post 1, .sleep 1, .post 2])) ∧
    ((responses 0).ok = false → (responses 1).ok = false → (responses 2).ok = false →
      update_access_token responses now s =
        (.error (.tokenUpdateError "Could not get new access token."),
         [.post 0, .sleep 0, .post 1, .sleep 1, .post 2, .sleep 4])) ∧
    ((responses 0).ok = true →
      update_access_token responses now s =
        (.ok (process_refresh_success s (responses 0).payload now), [.post 0])) ∧
    ((responses 0).ok = false → (responses 1).ok = true →
      update_access_token responses now s =
        (.ok (process_refresh_success s (responses 1).payload now),
         [.post 0, .sleep 0, .post 1])) := by
  by_cases h0 : (responses 0).ok = true <;> by_cases h1 : (responses 1).ok = true <;>
    by_cases h2 : (responses 2).ok = true <;>
    refine ⟨?_, ?_, ?_, ?_, ?_⟩ <;>
    simp_all [update_access_token, update_access_token_go, REvent.isPost, List.countP] <;>
    decide

/-- Witness for `update_access_token_retry`: a stub endpoint failing on
attempts 0 and 1 and succeeding on attempt 2 yields success with the trace
`post 0, sleep 0, post 1, sleep 1, post 2` — two backoff delays. -/
theorem update_access_token_retry_witness :
    update_access_token
        (fun i => if i == 2 then ⟨true, [("access_token", .str "x")]⟩ else ⟨false, []⟩)
        5 (mkExpiryState ⟨10, 10, true⟩) =
      (.ok (process_refresh_success (mkExpiryState ⟨10, 10, true⟩)
              [("access_token", .str "x")] 5),
       [.post 0, .sleep 0, .post 1, .sleep 1, .post 2]) :=
  (update_access_token_retry
    (fun i => if i == 2 then ⟨true, [("access_token", .str "x")]⟩ else ⟨false, []⟩)
    5 (mkExpiryState ⟨10, 10, true⟩)).2.1 rfl rfl rfl

/-- C6: the background checker loop completes every poll cycle whatever the
cycles' `update_tokens` calls do: each cycle performs its call, logs the
exception exactly when the call raised, signals readiness and sleeps one
poll interval; no raising cycle ends the loop, and the readiness signal
that unblocks the caller of `update_tokens_auto` is part of the very first
cycle even when that cycle raised. -/
theorem checker_loop_resilient (usable : ℤ) (outcomes : List Bool) :
    ((checker_loop usable outcomes).count LEvent.updateCall = outcomes.length) ∧
    ((checker_loop usable outcomes).count (LEvent.sleepPoll usable) = outcomes.length) ∧
    ((checker_loop usable outcomes).count LEvent.logError = outcomes.count true) ∧
    (∀ o rest, outcomes = o :: rest →
      checker_loop usable outcomes =
        checker_cycle usable o ++ checker_loop usable rest ∧
      LEvent.firstSet ∈ checker_cycle usable o) := by
  refine ⟨?_, ?_, ?_, ?_⟩
  · induction outcomes with
    | nil => rfl
    | cons o rest ih => cases o <;> simp_all [checker_loop, checker_cycle]
  · induction outcomes with
    | nil => rfl
    | cons o rest ih => cases o <;> simp_all [checker_loop, checker_cycle]
  · induction outcomes with
    | nil => rfl
    | cons o rest ih => cases o <;> simp_all [checker_loop, checker_cycle]
  · rintro o rest rfl
    exact ⟨by simp [checker_loop], by cases o <;> simp [checker_cycle]⟩

/-- Witness for `checker_loop_resilient` on a run whose first cycle raises
and second completes: both cycles run in full, the one exception is logged,
and the readiness signal is present in the first cycle. -/
theorem checker_loop_resilient_witness :
    (checker_loop 60 [true, false]).count LEvent.updateCall = 2 ∧
    (checker_loop 60 [true, false]).count LEvent.logError = 1 ∧
    checker_loop 60 [true, false] =
      checker_cycle 60 true ++ checker_loop 60 [false] ∧
    LEvent.firstSet ∈ checker_cycle 60 true := by
  have h := checker_loop_resilient 60 [true, false]
  have h4 := h.2.2.2 true [false] rfl
  exact ⟨h.1, h.2.2.1, h4.1, h4.2⟩

/-- C7 counterexample: the non-interactive guard of
`acquire_refresh_token` and the non-2xx authorization-code exchange both
raise the *same* Python exception class, `TokenUpdateError` — the
"unavailable" failure is not an error kind distinguishable from the
"acquisition failed" kind, only the messages differ. -/
theorem acquire_unavailable_kind_counterexample :
    (acquire_refresh_token_body false "u" ⟨true, []⟩ 0 (mkExpiryState ⟨0, 0, true⟩)).1 =
      .error (.tokenUpdateError
        "Unable to update refresh token: no webbrowser and not a tty!") ∧
    (acquire_refresh_token_body true "https://127.0.0.1/?code=C%40&session=s"
        ⟨false, []⟩ 0 (mkExpiryState ⟨0, 0, true⟩)).1 =
      .error (.tokenUpdateError "Could not acquire refresh token.") ∧
    PyExc.className
        (.tokenUpdateError "Unable to update refresh token: no webbrowser and not a tty!") =
      PyExc.className (.tokenUpdateError "Could not acquire refresh token.") := by
  refine ⟨by decide, ?_, rfl⟩
  decide

/-- C7 (amended): calling `acquire_refresh_token` with browser launch not
permitted and stdin not a tty fails immediately — before any prompt,
browser launch, network call or blocking read (the trace is empty, so it
never blocks) — raising `TokenUpdateError`, the same exception class the
failed authorization-code exchange raises, distinguished only by its
message. -/
theorem acquire_unavailable_guard (pastedUrl url2 : String)
    (resp resp2 : HttpResponse) (now : ℤ) (s s2 : TokensState)
    (hwb : s.webbrowser = false) :
    acquire_refresh_token_body false pastedUrl resp now s =
      (.error (.tokenUpdateError
        "Unable to update refresh token: no webbrowser and not a tty!"), []) ∧
    (s2.webbrowser = true → resp2.ok = false → ∀ c, extract_code url2 = .ok c →
      (acquire_refresh_token_body true url2 resp2 now s2).1 =
        .error (.tokenUpdateError "Could not acquire refresh token.")) ∧
    PyExc.className
        (.tokenUpdateError "Unable to update refresh token: no webbrowser and not a tty!") =
      PyExc.className (.tokenUpdateError "Could not acquire refresh token.") ∧
    (PyExc.tokenUpdateError
        "Unable to update refresh token: no webbrowser and not a tty!") ≠
      .tokenUpdateError "Could not acquire refresh token." := by
  refine ⟨?_, ?_, rfl, by decide⟩
  · simp [acquire_refresh_token_body, hwb]
  · intro hwb2 hok c hc
    simp [acquire_refresh_token_body, hwb2, hc, hok]

/-- Witness for `acquire_unavailable_guard` at concrete inputs: the guard
fires with an empty trace, and a pasted URL whose exchange is rejected
raises the acquisition failure of the same class. -/
theorem acquire_unavailable_guard_witness :
    acquire_refresh_token_body false "u" ⟨true, []⟩ 0 (mkExpiryState ⟨0, 0, true⟩) =
      (.error (.tokenUpdateError
        "Unable to update refresh token: no webbrowser and not a tty!"), []) ∧
    (acquire_refresh_token_body true "https://127.0.0.1/?code=C%40&session=s"
        ⟨false, []⟩ 0
        { mkExpiryState ⟨0, 0, true⟩ with webbrowser := true }).1 =
      .error (.tokenUpdateError "Could not acquire refresh token.") := by
  have h := acquire_unavailable_guard "u" "https://127.0.0.1/?code=C%40&session=s"
    ⟨true, []⟩ ⟨false, []⟩ 0 (mkExpiryState ⟨0, 0, true⟩)
    { mkExpiryState ⟨0, 0, true⟩ with webbrowser := true } rfl
  exact ⟨h.1, h.2.1 rfl rfl "C@" (by decide)⟩

/-- C9 counterexample: at refresh remaining 30 s, access remaining 1000 s,
auto-refresh off, the `tokens.py` check does nothing while the `api.py`
check triggers the access-token refresh (its `rte < 60` disjunct) — the
two implementations are not equivalent deciders. -/
theorem update_tokens_impls_differ :
    update_tokens_decider ⟨30, 1000, false⟩ ≠
      update_tokens_api_decider ⟨30, 1000, false⟩ := by
  decide

/-- C9 (amended): the two `update_tokens` implementations re-authorize
under the same condition (`auto_refresh` and refresh remaining < 1 s), but
they differ elsewhere: `tokens.py` warns (3×) iff the refresh token has
under 1 s left regardless of `auto_refresh`, and refreshes iff the access
token has under 60 s left; `api.py` warns only when it also re-authorizes,
and refreshes iff it did not re-authorize and either token has under 60 s
left. -/
theorem update_tokens_impls_compared (i : UTInput) :
    ((update_tokens_decider i).reauth = (update_tokens_api_decider i).reauth) ∧
    ((update_tokens_decider i).reauth = (decide (i.rte < 1) && i.auto)) ∧
    ((update_tokens_decider i).warns = if i.rte < 1 then 3 else 0) ∧
    ((update_tokens_api_decider i).warns
        = if i.auto = true ∧ i.rte < 1 then 3 else 0) ∧
    ((update_tokens_decider i).refreshes = decide (i.ate < 60)) ∧
    ((update_tokens_api_decider i).refreshes
        = (!(i.auto && decide (i.rte < 1)) &&
           (decide (i.rte < 60) || decide (i.ate < 60)))) := by
  have hre : (mkExpiryState i).refreshToken.expires 0 = i.rte := by
    simp [mkExpiryState, Token.expires, datetimeAge]
  have hae : (mkExpiryState i).accessToken.expires 0 = i.ate := by
    simp [mkExpiryState, Token.expires, datetimeAge]
  have hauto : (mkExpiryState i).autoRefresh = i.auto := rfl
  have husable : (mkExpiryState i).tokenUsable = 60 := rfl
  cases hA : i.auto <;>
    by_cases h1 : i.rte < 1 <;> by_cases h60 : i.rte < 60 <;>
    by_cases hac : i.ate < 60 <;>
    first
      | (exact absurd (by omega : i.rte < 60) h60)
      | (refine ⟨?_, ?_, ?_, ?_, ?_, ?_⟩ <;>
          simp [update_tokens_decider, update_tokens_api_decider, update_tokens,
            update_tokens_api, hre, hae, hauto, husable, hA, h1, h60, hac])

/-- C10: `Tokens.__init__` raises — with the tokens file untouched (empty
event trace) — exactly when `callback_url` or `tokens_file` is `None`, or
the app key's length differs from 32, or the app secret's length differs
from 16; any input passing these checks constructs successfully for every
on-disk condition, and an absent/malformed tokens file (`none`) is handled
by creating an empty file rather than raising. -/
theorem tokens_init_validation (app_key app_secret : String)
    (callback_url tokens_file : Option String)
    (verbose webbrowser auto_refresh : Bool) (file : Option FileState) :
    ((∃ e, (tokens_init app_key app_secret callback_url tokens_file
        verbose webbrowser auto_refresh file).1 = .error e) ↔
      (callback_url = none ∨ tokens_file = none ∨
       app_key.length ≠ 32 ∨ app_secret.length ≠ 16)) ∧
    ((callback_url = none ∨ tokens_file = none ∨
       app_key.length ≠ 32 ∨ app_secret.length ≠ 16) →
      (tokens_init app_key app_secret callback_url tokens_file
        verbose webbrowser auto_refresh file).2 = []) ∧
    (callback_url ≠ none → tokens_file ≠ none →
     app_key.length = 32 → app_secret.length = 16 →
      (∃ st, (tokens_init app_key app_secret callback_url tokens_file
        verbose webbrowser auto_refresh file).1 = .ok st) ∧
      (file = none →
        (tokens_init app_key app_secret callback_url tokens_file
          verbose webbrowser auto_refresh file).2
          = [IEvent.fileRead, IEvent.fileCreate])) := by
  have hat : Token.init 1800 0 = .ok { lifetime := 1800, issued := none, tok := none } := by
    simp [Token.init]
  have hrt : Token.init 0 11 = .ok { lifetime := 950400, issued := none, tok := none } := by
    norm_num [Token.init]
  by_cases hn : callback_url = none ∨ tokens_file = none
  · have hres : tokens_init app_key app_secret callback_url tokens_file
        verbose webbrowser auto_refresh file =
        (.error (.exception "callback_url and tokens_file cannot be None."), []) := by
      rw [tokens_init, if_pos hn]
    refine ⟨⟨fun _ => by tauto, fun _ => ?_⟩, fun _ => by rw [hres], fun hcb htf _ _ => ?_⟩
    · exact ⟨.exception "callback_url and tokens_file cannot be None.", by rw [hres]⟩
    · exact absurd hn (by tauto)
  · by_cases hlen : app_key.length ≠ 32 ∨ app_secret.length ≠ 16
    · have hres : tokens_init app_key app_secret callback_url tokens_file
          verbose webbrowser auto_refresh file =
          (.error (.exception "Invalid length App key or app secret."), []) := by
        rw [tokens_init, if_neg hn, if_pos hlen]
      refine ⟨⟨fun _ => by tauto, fun _ => ?_⟩, fun _ => by rw [hres], fun _ _ hk hs => ?_⟩
      · exact ⟨.exception "Invalid length App key or app secret.", by rw [hres]⟩
      · exact absurd hlen (by tauto)
    · obtain ⟨st, tr, hres, htr⟩ :
          ∃ st tr, tokens_init app_key app_secret callback_url tokens_file
              verbose webbrowser auto_refresh file = (.ok st, tr) ∧
            (file = none → tr = [IEvent.fileRead, IEvent.fileCreate]) := by
        cases file with
        | none =>
            refine ⟨{ accessToken := { lifetime := 1800, issued := none, tok := none }
                      refreshToken := { lifetime := 950400, issued := none, tok := none }
                      idToken := none
                      tokenUsable := 60
                      autoRefresh := auto_refresh
                      webbrowser := webbrowser
                      verbose := verbose },
                    [IEvent.fileRead, IEvent.fileCreate], ?_, fun _ => rfl⟩
            rw [tokens_init, if_neg hn, if_neg hlen, hat, hrt]
            rfl
        | some f =>
            refine ⟨read_into
                    { accessToken := { lifetime := 1800, issued := none, tok := none }
                      refreshToken := { lifetime := 950400, issued := none, tok := none }
                      idToken := none
                      tokenUsable := 60
                      autoRefresh := auto_refresh
                      webbrowser := webbrowser
                      verbose := verbose } f,
                    [IEvent.fileRead], ?_, by simp⟩
            rw [tokens_init, if_neg hn, if_neg hlen, hat, hrt]
            rfl
      refine ⟨⟨?_, fun h => absurd h (by tauto)⟩, fun h => absurd h (by tauto),
        fun _ _ _ _ => ⟨⟨st, by rw [hres]⟩, fun hf => ?_⟩⟩
      · rintro ⟨e, he⟩
        rw [hres] at he
        cases he
      · rw [hres]
        exact htr hf

/-- Witness for `tokens_init_validation`: a 31-character app key is
rejected with no file event, while a 32/16-character pair constructs
successfully even with the tokens file absent, creating an empty file. -/
theorem tokens_init_validation_witness :
    (∃ e, (tokens_init "0123456789012345678901234567890" "0123456789012345"
        (some "https://127.0.0.1") (some "tokens.json") true false true none).1
        = .error e) ∧
    (∃ st, (tokens_init "01234567890123456789012345678901" "0123456789012345"
        (some "https://127.0.0.1") (some "tokens.json") true false true none).1
        = .ok st) ∧
    (tokens_init "01234567890123456789012345678901" "0123456789012345"
        (some "https://127.0.0.1") (some "tokens.json") true false true none).2
      = [IEvent.fileRead, IEvent.fileCreate] := by
  have h31 := tokens_init_validation "0123456789012345678901234567890"
    "0123456789012345" (some "https://127.0.0.1") (some "tokens.json")
    true false true none
  have h32 := tokens_init_validation "01234567890123456789012345678901"
    "0123456789012345" (some "https://127.0.0.1") (some "tokens.json")
    true false true none
  have hok := h32.2.2 (by decide) (by decide) (by decide) (by decide)
  exact ⟨h31.1.mpr (by decide), hok.1, hok.2 rfl⟩

end Schwabdev
